import Mathlib

/-!
Shallow embedding of `runapp.py` (ryt/runapp), a small command-line
supervisor that derives gunicorn shell commands from a configuration file,
scans the OS process table, and runs start/stop/restart/debug transitions.

The embedding mirrors the Python source: fallible Python code is modelled
with `Except PyError`, the `ps aux` output parsing is reproduced character
by character (whitespace collapsing, `split(' ', 10)`, index access that can
raise `IndexError`), and the lifecycle operations are modelled as functions
producing a trace of externally observable events (process-table scans,
shell executions, prints) together with a final outcome.
-/

namespace Runapp

/-! ### Python string primitives

Executable models of the Python string operations used by the source:
`str.strip()`, `str.rstrip(chars)`, `re.sub(' +', ' ', s)`, `str.split(sep)`,
`str.split(sep, maxsplit)`, `sep.join(list)`, and the `in` substring test.
All are structural recursions over `List Char` so that they evaluate inside
the kernel. -/

/-- Whitespace characters stripped by Python `str.strip()` (the subset that
can occur in `ps aux` output). -/
def isPyWs (c : Char) : Bool :=
  c == ' ' || c == '\t' || c == '\n' || c == '\r'

/-- Python `s.strip()`: remove leading and trailing whitespace. -/
def pyStrip (s : String) : String :=
  ⟨((s.data.dropWhile isPyWs).reverse.dropWhile isPyWs).reverse⟩

/-- Python `s.rstrip(chars)`: remove trailing characters that are members of
the character set `chars` (NOT suffix removal — this matters for
`cm_start.rstrip("-D")` in the source, which strips trailing `-` and `D`
characters). -/
def pyRstrip (chars : String) (s : String) : String :=
  ⟨(s.data.reverse.dropWhile (fun c => chars.data.contains c)).reverse⟩

/-- Helper for `re.sub(' +', ' ', s)`: the boolean flag records whether the
previous character was a space. -/
def collapseAux : List Char → Bool → List Char
  | [], _ => []
  | c :: cs, prevSpace =>
    if c = ' ' then
      if prevSpace then collapseAux cs true else ' ' :: collapseAux cs true
    else c :: collapseAux cs false

/-- Python `re.sub(' +', ' ', s)`: collapse runs of spaces to single spaces. -/
def collapseSpaces (s : String) : String :=
  ⟨collapseAux s.data false⟩

/-- Helper for Python `s.split(sep)` (no maxsplit): accumulates the current
field in reverse. -/
def splitAllAux (sep : Char) : List Char → List Char → List String
  | acc, [] => [⟨acc.reverse⟩]
  | acc, c :: cs =>
    if c = sep then ⟨acc.reverse⟩ :: splitAllAux sep [] cs
    else splitAllAux sep (c :: acc) cs

/-- Python `s.split(sep)` with a single-character separator: splits at every
occurrence, keeping empty fields (`"".split(' ') = ['']`). -/
def pySplitAll (sep : Char) (s : String) : List String :=
  splitAllAux sep [] s.data

/-- Helper for Python `s.split(sep, maxsplit)`. The `Nat` argument counts the
remaining allowed splits. -/
def splitMaxAux (sep : Char) : Nat → List Char → List Char → List String
  | _, acc, [] => [⟨acc.reverse⟩]
  | 0, acc, rest => [⟨acc.reverse ++ rest⟩]
  | n + 1, acc, c :: cs =>
    if c = sep then ⟨acc.reverse⟩ :: splitMaxAux sep n [] cs
    else splitMaxAux sep (n + 1) (c :: acc) cs

/-- Python `s.split(sep, maxsplit)` with a single-character separator: at most
`maxsplit` splits are performed, so the result has at most `maxsplit + 1`
fields and the last field keeps the remainder verbatim. -/
def pySplitMax (sep : Char) (maxsplit : Nat) (s : String) : List String :=
  splitMaxAux sep maxsplit [] s.data

/-- Python `sep.join(xs)`. -/
def pyJoin (sep : String) : List String → String
  | [] => ""
  | [x] => x
  | x :: y :: xs => x ++ sep ++ pyJoin sep (y :: xs)

/-- Does the needle occur at the head of the haystack? -/
def subStarts : List Char → List Char → Bool
  | [], _ => true
  | _ :: _, [] => false
  | c :: cs, d :: ds => c == d && subStarts cs ds

/-- Helper for the Python substring test: does `nd` occur in the haystack? -/
def subOccurs (nd : List Char) : List Char → Bool
  | [] => nd.isEmpty
  | c :: cs => subStarts nd (c :: cs) || subOccurs nd cs

/-- Python `needle in hay` for strings. -/
def pyInStr (needle hay : String) : Bool :=
  subOccurs needle.data hay.data

/-- Python list slicing `s[0:n]` on strings. -/
def pyTake (n : Nat) (s : String) : String := ⟨s.data.take n⟩

/-- Python list slicing `s[n:]` on strings. -/
def pyDrop (n : Nat) (s : String) : String := ⟨s.data.drop n⟩

/-- A single-quote character as a string (used verbatim inside the grep
commands built by the source). -/
def sq : String := "\x27"

/-! ### Python exceptions -/

/-- The Python exceptions that the embedded fragments of `runapp.py` can
raise: `IndexError` (list index out of range), `configparser.NoOptionError`
(missing required key), `AttributeError` (access to a class attribute that
was never assigned), `subprocess.CalledProcessError` (shell command exited
non-zero) and `UnboundLocalError` (use of a local variable before
assignment). -/
inductive PyError where
  | indexError
  | noOptionError
  | attributeError
  | calledProcessError
  | unboundLocalError
  deriving DecidableEq

/-- Python `l[i]` on lists: returns the element or raises `IndexError`. -/
def pyIndex {α : Type} (l : List α) (i : Nat) : Except PyError α :=
  match l.get? i with
  | some v => Except.ok v
  | none => Except.error PyError.indexError

/-! ### Configuration loading (`load_conf`, lines 122-185)

The parsed key/value pairs of the `[global]` section are modelled as an
association list; `ConfigParser.get` raises `NoOptionError` when a key is
missing, and `has_option` is a plain lookup test. -/

/-- A parsed configuration: the key/value pairs of the implicit `[global]`
section. -/
abbrev Config : Type := List (String × String)

/-- `config.get('global', key)`: returns the value or raises
`NoOptionError`. -/
def cfgGet (cfg : Config) (key : String) : Except PyError String :=
  match List.lookup key cfg with
  | some v => Except.ok v
  | none => Except.error PyError.noOptionError

/-- The fixed suffix `settings.add_suffx = 'runapp'` (line 79). -/
def add_suffx : String := "runapp"

/-- The state of the Python `settings` class after `load_conf` ran (lines
76-95 and 149-185). `conf_file` models the class attribute of that name:
the class never declares it and `load_conf` never assigns it (only a local
variable `conf_file` exists in `load_conf`), so it is `none` — reading it
raises `AttributeError` (relevant to `process_conf`, line 370). -/
structure SettingsState where
  appname : String
  appcall : String
  appuser : String
  appgroup : String
  workers : String
  port : String
  appsuffx : String
  sslcertkey : String
  cm_start : String
  cm_debug : String
  cm_list : String
  cm_listall : String
  conf_file : Option String
  deriving DecidableEq

/-- `load_conf()` (lines 122-185), modelled from the point where the config
file has been parsed into key/value pairs. `specifiedAppdir` is the validated
appdir of explicit mode (`validate_specified_configs`), `none` in implicit
mode.

Faithful details:
* the six required keys are read with `config.get`, raising `NoOptionError`
  if absent (lines 149-154);
* `settings.appsuffx = f'{appname}-{add_suffx}'` (line 157);
* in explicit mode `appcall` is prefixed with `--chdir appdir` (line 161);
* the LOCAL variable `sslcertkey` (line 170) is assigned only inside the
  `has_option('global', 'sslcertkey')` branch; line 165 assigns the class
  attribute `settings.sslcertkey`, a different name. The f-string at line
  175 interpolates the bare local `sslcertkey`, so when the option is absent
  Python raises `UnboundLocalError`. The local is modelled as an
  `Option String` that starts out unbound (`none`);
* with the option present, `sslck = value.split(' ')` and `sslck[1]` raises
  `IndexError` when the value holds a single path (line 170);
* `cm_start` is the concatenation of line 174-181, `cm_debug` applies
  `rstrip("-D")` (character-set strip) and appends the log-level flag (line
  183), `cm_list`/`cm_listall` are the grep commands of lines 184-185. -/
def load_conf (cfg : Config) (specifiedAppdir : Option String) :
    Except PyError SettingsState := do
  let appname ← cfgGet cfg "appname"
  let appcall0 ← cfgGet cfg "appcall"
  let appuser ← cfgGet cfg "appuser"
  let appgroup ← cfgGet cfg "appgroup"
  let workers ← cfgGet cfg "workers"
  let port ← cfgGet cfg "port"
  let appsuffx := appname ++ "-" ++ add_suffx
  let appcall := match specifiedAppdir with
    | some d => "--chdir " ++ d ++ " " ++ appcall0
    | none => appcall0
  let sslLocal : Option String ←
    match List.lookup "sslcertkey" cfg with
    | some v => do
        let sslck := pySplitAll ' ' v
        let c0 ← pyIndex sslck 0
        let c1 ← pyIndex sslck 1
        pure (some ("--certfile=" ++ c0 ++ " --keyfile=" ++ c1))
    | none => pure none
  let sslcertkey ←
    match sslLocal with
    | some s => Except.ok s
    | none => Except.error PyError.unboundLocalError
  let cm_start :=
    "gunicorn " ++ sslcertkey ++ " " ++ appcall ++ " " ++
    "-n " ++ appsuffx ++ " " ++
    "-w " ++ workers ++ " " ++
    "-u " ++ appuser ++ " " ++
    "-g " ++ appgroup ++ " " ++
    "-b :" ++ port ++ " -D"
  let cm_debug := pyRstrip "-D" cm_start ++ " --log-level debug"
  let cm_list :=
    "ps aux | grep " ++ sq ++ "[" ++ pyTake 1 appname ++ "]" ++
    pyDrop 1 appname ++ sq
  let cm_listall := "ps aux | grep " ++ sq ++ add_suffx ++ sq
  pure {
    appname := appname
    appcall := appcall
    appuser := appuser
    appgroup := appgroup
    workers := workers
    port := port
    appsuffx := appsuffx
    sslcertkey := ""
    cm_start := cm_start
    cm_debug := cm_debug
    cm_list := cm_list
    cm_listall := cm_listall
    conf_file := none
  }

/-! ### Process table scanning (`ps_aux`, lines 188-237) -/

/-- A parsed process-table row (the dict built at lines 227-235): fields 0,
1, 2, 3, 7, 9 and 10 of the whitespace-collapsed `ps aux` line. -/
structure ProcRecord where
  user : String
  pid : String
  cpu : String
  mem : String
  start : String
  time : String
  command : String
  deriving DecidableEq

/-- The dict construction of lines 227-235, on the fields of one split line
(every access `line[i]` can raise `IndexError`). -/
def mkRecord (l : List String) : Except PyError ProcRecord := do
  let user ← pyIndex l 0
  let pid ← pyIndex l 1
  let cpu ← pyIndex l 2
  let mem ← pyIndex l 3
  let start ← pyIndex l 7
  let time ← pyIndex l 9
  let command ← pyIndex l 10
  pure ⟨user, pid, cpu, mem, start, time, command⟩

/-- The filter loop of lines 224-235: for each split line, `line[10]` is
indexed first (raising `IndexError` on lines with fewer than 11 fields),
then the line is kept only when the command field contains `'gunicorn'`. -/
def scanLines : List (List String) → Except PyError (List ProcRecord)
  | [] => Except.ok []
  | l :: rest =>
    match pyIndex l 10 with
    | Except.error e => Except.error e
    | Except.ok c10 =>
      if pyInStr "gunicorn" c10 then
        match mkRecord l with
        | Except.error e => Except.error e
        | Except.ok r =>
          match scanLines rest with
          | Except.error e => Except.error e
          | Except.ok rs => Except.ok (r :: rs)
      else scanLines rest

/-- The preprocessing of lines 218-220: collapse runs of spaces, strip the
whole output, split into lines, split each line on single spaces with
maxsplit 10 (so at most 11 fields, the last one capturing the remainder of
the command line). -/
def fieldsOf (out : String) : List (List String) :=
  (pySplitAll '\n' (pyStrip (collapseSpaces out))).map (pySplitMax ' ' 10)

/-- The parsing part of `ps_aux` (lines 218-237), applied to the raw output
of the list command. -/
def ps_parse (out : String) : Except PyError (List ProcRecord) :=
  scanLines (fieldsOf out)

/-- `ps_aux()` (lines 188-237), as a function of the result of
`check_output(cmd, shell=True)`: a `CalledProcessError` from the list
command (modelled as `Except.error ()`) is caught and yields `[]`
(lines 213-216); otherwise the output is parsed. -/
def ps_aux (res : Except Unit String) : Except PyError (List ProcRecord) :=
  match res with
  | Except.error _ => Except.ok []
  | Except.ok out => ps_parse out

/-! ### The external world

The two shell-facing collaborators of the source (`check_output` for the
list command, `run_cmd` for the built command) are modelled as an oracle
fixing their results: `Except.error ()` stands for a `CalledProcessError`
(non-zero exit). -/

/-- Results of the two shell calls the source makes. -/
structure Oracle where
  scanOut : Except Unit String
  execRes : String → Except Unit String

/-- `get_pids()` (lines 240-248): the pid field of every scanned record. -/
def get_pids (orc : Oracle) : Except PyError (List String) := do
  let procs ← ps_aux orc.scanOut
  pure (procs.map ProcRecord.pid)

/-! ### Lifecycle operations (lines 251-378)

Each operation is modelled as a function from the CLI argument vector, the
oracle and the loaded `SettingsState` (the memoized result of `load_conf`)
to a trace of externally observable events plus a final outcome. -/

/-- Externally observable events of one invocation: a process-table scan
(`ps aux` issued through the shell), execution of a built command through
`run_cmd`, a printed line, the print-and-terminate of `sys.exit(cmd)` in
`show_cmd`, and the per-record listing line of `process_list` (its exact
formatting is presentation-layer and kept abstract). -/
inductive Ev where
  | scan
  | exec (cmd : String)
  | print (msg : String)
  | exitPrint (msg : String)
  | printRecord (r : ProcRecord)
  deriving DecidableEq

/-- Final outcome of one invocation: normal completion (exit 0), the
immediate termination of dry-run mode (`sys.exit(cmd)` in `show_cmd`), or an
uncaught Python exception (a crash with non-zero exit). -/
inductive PyResult where
  | finished
  | exitedDryRun
  | crashed (e : PyError)
  deriving DecidableEq

/-- The condition of `show_cmd` (lines 251-259): dry-run is requested when
`sys.argv[2] == '-s'` (implicit mode) or `sys.argv[4] == '-s'` (explicit
mode with config and appdir arguments). -/
def dryRunFlag (argv : List String) : Bool :=
  argv.getD 2 "" == "-s" || argv.getD 4 "" == "-s"

/-- The kill command of lines 325/337/352:
`f"kill -9 {' && kill -9 '.join(pids)}" if pids else ''`. -/
def stopCmd (pids : List String) : String :=
  if pids.isEmpty then ""
  else "kill -9 " ++ pyJoin " && kill -9 " pids

/-- The compound command of lines 337-338 and 352-353: kill the discovered
pids (if any) and then run `c`; with no pids, just `c`. -/
def killThen (pids : List String) (c : String) : String :=
  if pids.isEmpty then c else stopCmd pids ++ " && " ++ c

/-- `process_list()` (lines 267-303) with `show_all=False`, as called on its
own or from the success branches of start/restart. The per-record output
lines (formatting via regex at lines 281-301) are abstracted to
`Ev.printRecord`. -/
def process_list (argv : List String) (orc : Oracle) (st : SettingsState) :
    List Ev × PyResult :=
  if dryRunFlag argv then ([Ev.exitPrint st.cm_list], PyResult.exitedDryRun)
  else
    match ps_aux orc.scanOut with
    | Except.error e => ([Ev.scan], PyResult.crashed e)
    | Except.ok procs =>
      if procs.isEmpty then
        ([Ev.scan,
          Ev.print ("No processes found for " ++ st.appname ++
            ". App is (most likely) not running.")],
         PyResult.finished)
      else
        ([Ev.scan,
          Ev.print ("The app " ++ st.appname ++
            " is currently running under " ++ toString procs.length ++
            " processes at port " ++ st.port ++ ":")] ++
          procs.map Ev.printRecord,
         PyResult.finished)

/-- `process_start()` (lines 306-319). `show_cmd` runs BEFORE `get_pids`
here (lines 309-310): in dry-run mode no scan happens. On success the
command output is printed if non-empty and `process_list` runs; a
`CalledProcessError` from `run_cmd` is caught and converted to the generic
message (lines 318-319). -/
def process_start (argv : List String) (orc : Oracle) (st : SettingsState) :
    List Ev × PyResult :=
  let cmd := st.cm_start
  if dryRunFlag argv then ([Ev.exitPrint cmd], PyResult.exitedDryRun)
  else
    match get_pids orc with
    | Except.error e => ([Ev.scan], PyResult.crashed e)
    | Except.ok pids =>
      let evs := [Ev.scan] ++
        (if pids.isEmpty then []
         else [Ev.print
           "The app is already running with processes. Attempting to start again."]) ++
        [Ev.print ("Starting " ++ st.appname ++ " using " ++ st.appcall ++
          " at port " ++ st.port ++ ".")]
      match orc.execRes cmd with
      | Except.error _ =>
        (evs ++ [Ev.exec cmd,
          Ev.print "Nothing to start. Be sure to double check your app configuration."],
         PyResult.finished)
      | Except.ok out =>
        let l := process_list argv orc st
        (evs ++ [Ev.exec cmd] ++ (if out = "" then [] else [Ev.print out]) ++ l.1,
         l.2)

/-- `process_stop()` (lines 322-331). `get_pids` runs BEFORE `show_cmd`
(lines 324-326), since the kill command is built from the scanned pids.
There is NO try/except around `run_cmd` here: a `CalledProcessError`
propagates as a crash. -/
def process_stop (argv : List String) (orc : Oracle) (st : SettingsState) :
    List Ev × PyResult :=
  match get_pids orc with
  | Except.error e => ([Ev.scan], PyResult.crashed e)
  | Except.ok pids =>
    let cmd := stopCmd pids
    if dryRunFlag argv then
      ([Ev.scan, Ev.exitPrint cmd], PyResult.exitedDryRun)
    else
      let evs := [Ev.scan,
        Ev.print ("Stopping " ++ st.appname ++ " and terminating " ++
          toString pids.length ++ " processes.")]
      match orc.execRes cmd with
      | Except.error _ =>
        (evs ++ [Ev.exec cmd], PyResult.crashed PyError.calledProcessError)
      | Except.ok out =>
        (evs ++ [Ev.exec cmd] ++
          (if out = "" then [] else [Ev.print out]) ++
          (if pids.isEmpty then
            [Ev.print "Nothing to stop. Be sure to double check your app configuration."]
           else []),
         PyResult.finished)

/-- `process_restart()` (lines 334-346). `get_pids` runs BEFORE `show_cmd`
(lines 336-339); the compound command kills the discovered pids and then
starts; a `CalledProcessError` from `run_cmd` is caught and converted to the
generic message (lines 345-346). -/
def process_restart (argv : List String) (orc : Oracle) (st : SettingsState) :
    List Ev × PyResult :=
  match get_pids orc with
  | Except.error e => ([Ev.scan], PyResult.crashed e)
  | Except.ok pids =>
    let cmd := killThen pids st.cm_start
    if dryRunFlag argv then
      ([Ev.scan, Ev.exitPrint cmd], PyResult.exitedDryRun)
    else
      let evs := [Ev.scan,
        Ev.print ("Restarting " ++ st.appname ++ " using " ++ st.appcall ++
          " at port " ++ st.port ++ ".")]
      match orc.execRes cmd with
      | Except.error _ =>
        (evs ++ [Ev.exec cmd,
          Ev.print "Nothing to restart. Be sure to double check your app configuration."],
         PyResult.finished)
      | Except.ok out =>
        let l := process_list argv orc st
        (evs ++ [Ev.exec cmd] ++ (if out = "" then [] else [Ev.print out]) ++ l.1,
         l.2)

/-- The introductory message printed by `process_debug` (lines 355-358). -/
def debugIntroMsg (st : SettingsState) : String :=
  "Running " ++ st.appname ++ " in debug mode using " ++ st.appcall ++
  " at port " ++ st.port ++ ".\nReview the following for details. Ctrl/Cmd+C to exit."

/-- `process_debug()` (lines 349-365). `get_pids` runs BEFORE `show_cmd`
(lines 351-354). The inner bare `except` (lines 360-363) catches EVERY
exception from `run_cmd` — including `CalledProcessError` — and prints an
empty line, so the outer `except CalledProcessError` branch with the
generic message (lines 364-365) is unreachable. -/
def process_debug (argv : List String) (orc : Oracle) (st : SettingsState) :
    List Ev × PyResult :=
  match get_pids orc with
  | Except.error e => ([Ev.scan], PyResult.crashed e)
  | Except.ok pids =>
    let cmd := killThen pids st.cm_debug
    if dryRunFlag argv then
      ([Ev.scan, Ev.exitPrint cmd], PyResult.exitedDryRun)
    else
      let evs := [Ev.scan, Ev.print (debugIntroMsg st)]
      match orc.execRes cmd with
      | Except.error _ =>
        (evs ++ [Ev.exec cmd, Ev.print ""], PyResult.finished)
      | Except.ok _ =>
        (evs ++ [Ev.exec cmd], PyResult.finished)

/-- `process_conf()` (lines 368-372): reads the class attribute
`settings.conf_file` (never assigned anywhere in the source, so the access
raises `AttributeError`), then would open and print the stripped file
contents. `fileRead` models `open(path).read()`. -/
def process_conf (fileRead : String → Except PyError String)
    (st : SettingsState) : Except PyError String :=
  match st.conf_file with
  | none => Except.error PyError.attributeError
  | some p => do
    let content ← fileRead p
    pure (pyStrip content)

/-- Does a trace contain a command execution (`run_cmd`)? -/
def isExecEv : Ev → Bool
  | Ev.exec _ => true
  | _ => false

/-- Total field access used to STATE what the scanner returns on
well-formed lines: field `i` of the split line, `""` when absent (on lines
with at least 11 fields the default is never used). -/
def fieldD (l : List String) (i : Nat) : String := (l.get? i).getD ""

/-- Total variant of the record extraction, used to STATE what the scanner
returns on well-formed lines. -/
def recOfFields (l : List String) : ProcRecord :=
  ⟨fieldD l 0, fieldD l 1, fieldD l 2, fieldD l 3,
   fieldD l 7, fieldD l 9, fieldD l 10⟩

/-- The scanner's keep condition, on a split line: the command-line field
(field 10) contains the token `gunicorn`. -/
def keepLine (l : List String) : Bool := pyInStr "gunicorn" (fieldD l 10)

deriving instance DecidableEq for Except

/-! ### Concrete test fixtures -/

/-- The example configuration of the spec (section 8): no TLS configured. -/
def cfg0 : Config :=
  [("appname", "hellopy"), ("appcall", "app:hello"), ("appuser", "ray"),
   ("appgroup", "staff"), ("workers", "2"), ("port", "8000")]

/-- The same configuration with a complete `sslcertkey` pair (both cert and
key paths). -/
def cfgSSL : Config :=
  [("appname", "hellopy"), ("appcall", "app:hello"), ("appuser", "ray"),
   ("appgroup", "staff"), ("workers", "2"), ("port", "8000"),
   ("sslcertkey", "/srv/ssl.crt /srv/ssl.key")]

/-- The same configuration with a partially configured `sslcertkey`: a
single path (cert without key). -/
def cfgSSL1 : Config :=
  [("appname", "hellopy"), ("appcall", "app:hello"), ("appuser", "ray"),
   ("appgroup", "staff"), ("workers", "2"), ("port", "8000"),
   ("sslcertkey", "/srv/ssl.crt")]

/-- A well-formed `ps aux` line (11 fields) whose command field contains
`gunicorn`. -/
def testPsLine : String :=
  "ray 1234 0.0 0.1 100 200 ?? Ss 10:00 0:01 /usr/bin/gunicorn app:hello"

/-- A two-line listing: one gunicorn line and one unrelated line. -/
def testPsTwo : String :=
  "ray 1234 0.0 0.1 100 200 ?? Ss 10:00 0:01 /usr/bin/gunicorn app:hello\nray 5678 0.0 0.1 100 200 ?? Ss 10:00 0:01 vim hellopy.txt"

/-- An oracle in which the process scan finds the gunicorn process above and
every executed command exits non-zero. -/
def testOracle : Oracle :=
  { scanOut := Except.ok testPsLine, execRes := fun _ => Except.error () }

/-- A loaded settings state used to exercise the lifecycle operations. -/
def testSettings : SettingsState :=
  { appname := "hellopy", appcall := "app:hello", appuser := "ray",
    appgroup := "staff", workers := "2", port := "8000",
    appsuffx := "hellopy-runapp", sslcertkey := "",
    cm_start := "gunicorn  app:hello -n hellopy-runapp -w 2 -u ray -g staff -b :8000 -D",
    cm_debug := "gunicorn  app:hello -n hellopy-runapp -w 2 -u ray -g staff -b :8000  --log-level debug",
    cm_list := "ps aux | grep " ++ sq ++ "[h]ellopy" ++ sq,
    cm_listall := "ps aux | grep " ++ sq ++ "runapp" ++ sq,
    conf_file := none }

/-- The settings state produced by loading `cfgSSL`. -/
def stSSL : SettingsState :=
  (load_conf cfgSSL none).toOption.getD
    { appname := "", appcall := "", appuser := "", appgroup := "",
      workers := "", port := "", appsuffx := "", sslcertkey := "",
      cm_start := "", cm_debug := "", cm_list := "", cm_listall := "",
      conf_file := none }

/-- A file-reading collaborator that always succeeds. -/
def fr0 : String → Except PyError String := fun _ => Except.ok "appname = hellopy"

/-! ### Helper lemmas -/

theorem bindOk {α β : Type} (a : α) (f : α → Except PyError β) :
    (Except.ok a >>= f) = f a := rfl

theorem bindErr {α β : Type} (e : PyError) (f : α → Except PyError β) :
    ((Except.error e : Except PyError α) >>= f) = Except.error e := rfl

theorem pureOk {α : Type} (a : α) : (pure a : Except PyError α) = Except.ok a := rfl

theorem cfgGet_some {cfg : Config} {k v : String}
    (h : List.lookup k cfg = some v) : cfgGet cfg k = Except.ok v := by
  simp [cfgGet, h]

theorem cfgGet_none {cfg : Config} {k : String}
    (h : List.lookup k cfg = none) :
    cfgGet cfg k = Except.error PyError.noOptionError := by
  simp [cfgGet, h]

theorem get?_eq_some_fieldD (l : List String) (i : Nat) (h : i < l.length) :
    l.get? i = some (fieldD l i) := by
  unfold fieldD
  cases hq : l.get? i with
  | none => exact absurd (List.get?_eq_none.mp hq) (by omega)
  | some v => simp [hq]

theorem pyIndex_ok (l : List String) (i : Nat) (h : i < l.length) :
    pyIndex l i = Except.ok (fieldD l i) := by
  unfold pyIndex
  rw [get?_eq_some_fieldD l i h]

theorem pyIndex_err (l : List String) (i : Nat) (h : l.length ≤ i) :
    pyIndex l i = Except.error PyError.indexError := by
  unfold pyIndex
  rw [List.get?_eq_none.mpr h]

theorem mkRecord_ok (l : List String) (h : 11 ≤ l.length) :
    mkRecord l = Except.ok (recOfFields l) := by
  simp only [mkRecord, pyIndex_ok l 0 (by omega), pyIndex_ok l 1 (by omega),
    pyIndex_ok l 2 (by omega), pyIndex_ok l 3 (by omega),
    pyIndex_ok l 7 (by omega), pyIndex_ok l 9 (by omega),
    pyIndex_ok l 10 (by omega), bindOk, pureOk, recOfFields]

/-- On a listing in which every split line has at least 11 fields, the
scanner loop keeps exactly the lines whose command field contains
`gunicorn`, in order. -/
theorem scanLines_ok (ls : List (List String))
    (h : ∀ l ∈ ls, 11 ≤ l.length) :
    scanLines ls = Except.ok ((ls.filter keepLine).map recOfFields) := by
  induction ls with
  | nil => simp [scanLines]
  | cons l rest ih =>
    have hl : 11 ≤ l.length := h l (List.mem_cons_self l rest)
    have hrest : ∀ x ∈ rest, 11 ≤ x.length :=
      fun x hx => h x (List.mem_cons_of_mem l hx)
    have h10 : pyIndex l 10 = Except.ok (fieldD l 10) := pyIndex_ok l 10 (by omega)
    by_cases hg : keepLine l = true
    · have hg' : pyInStr "gunicorn" (fieldD l 10) = true := hg
      simp [scanLines, h10, hg', mkRecord_ok l hl, ih hrest,
        List.filter_cons, keepLine, hg]
    · have hg' : ¬pyInStr "gunicorn" (fieldD l 10) = true := hg
      simp [scanLines, h10, hg', ih hrest, List.filter_cons, keepLine, hg]

/-- If some split line has fewer than 11 fields, the scanner loop raises
`IndexError` (the loop indexes field 10 of every line before filtering). -/
theorem scanLines_err (ls : List (List String))
    (h : ∃ l ∈ ls, l.length < 11) :
    scanLines ls = Except.error PyError.indexError := by
  induction ls with
  | nil => simp at h
  | cons l rest ih =>
    by_cases hl : l.length < 11
    · simp [scanLines, pyIndex_err l 10 (by omega)]
    · have hrest : ∃ x ∈ rest, x.length < 11 := by
        rcases h with ⟨x, hx, hxl⟩
        rcases List.mem_cons.mp hx with rfl | hx'
        · exact absurd hxl hl
        · exact ⟨x, hx', hxl⟩
      have h10 : pyIndex l 10 = Except.ok (fieldD l 10) := pyIndex_ok l 10 (by omega)
      by_cases hg : pyInStr "gunicorn" (fieldD l 10) = true
      · simp [scanLines, h10, hg, mkRecord_ok l (by omega), ih hrest]
      · simp [scanLines, h10, hg, ih hrest]

/-- `rstrip("-D")` on a string that ends in `" -D"` removes exactly the two
trailing characters: the strip is by character set, and the preceding space
stops it. -/
theorem pyRstrip_dashD (u : String) : pyRstrip "-D" (u ++ " -D") = u ++ " " := by
  cases u with
  | mk d =>
    show String.mk (((d ++ [' ', '-', 'D']).reverse.dropWhile
      (fun c => ("-D" : String).data.contains c)).reverse) = String.mk (d ++ [' '])
    have hrev : (d ++ [' ', '-', 'D']).reverse = 'D' :: '-' :: ' ' :: d.reverse := by
      simp
    rw [hrev]
    have hdrop : List.dropWhile (fun c => ("-D" : String).data.contains c)
        ('D' :: '-' :: ' ' :: d.reverse) = ' ' :: d.reverse := by
      simp [List.dropWhile]
    rw [hdrop]
    simp

theorem pyJoin_cons_append (sep x c : String) (xs : List String) :
    pyJoin sep ((x :: xs) ++ [c]) = x ++ sep ++ pyJoin sep (xs ++ [c]) := by
  cases xs with
  | nil => simp [pyJoin]
  | cons y t => simp [pyJoin]

/-- The Python expression `"kill -9 " + " && kill -9 ".join(pids) + " && " + c`
equals the plain `&&`-join of one `kill -9` segment per pid followed by the
final segment `c`. -/
theorem killsJoin (p : String) (rest : List String) (c : String) :
    "kill -9 " ++ pyJoin " && kill -9 " (p :: rest) ++ " && " ++ c
      = pyJoin " && " (((p :: rest).map fun q => "kill -9 " ++ q) ++ [c]) := by
  induction rest generalizing p with
  | nil => simp [pyJoin, String.append_assoc]
  | cons q t ih =>
    have hjoin : pyJoin " && kill -9 " (p :: q :: t)
        = p ++ " && kill -9 " ++ pyJoin " && kill -9 " (q :: t) := by
      simp [pyJoin]
    rw [hjoin, List.map_cons, pyJoin_cons_append, ← ih q]
    simp only [String.append_assoc]
    have hsep : ∀ X : String, " && kill -9 " ++ X = " && " ++ ("kill -9 " ++ X) := by
      intro X
      have h0 : (" && kill -9 " : String) = " && " ++ "kill -9 " := rfl
      rw [h0, String.append_assoc]
    rw [hsep]

/-- The joined kill-then-start command of lines 337-338 equals the
sequential `&&`-join of one kill segment per pid followed by the start
segment. -/
theorem killThen_eq_pyJoin (pids : List String) (c : String) (h : pids ≠ []) :
    killThen pids c =
      pyJoin " && " ((pids.map fun p => "kill -9 " ++ p) ++ [c]) := by
  match pids with
  | [] => exact absurd rfl h
  | p :: rest => simpa [killThen, stopCmd] using killsJoin p rest c

theorem pyIndex_lt_of_ok (l : List String) (i : Nat) (v : String)
    (h : pyIndex l i = Except.ok v) : i < l.length := by
  by_contra hlt
  rw [pyIndex_err l i (by omega)] at h
  exact Except.noConfusion h

/-- Inversion of a successful configuration load: the class attribute
`conf_file` is still unset, the start command ends in the detach flag
`" -D"` with the debug command derived from it by `rstrip("-D")` plus the
log-level flag, and the `sslcertkey` value (which must have been present,
else the load would have raised `UnboundLocalError`) split into at least
two space-separated paths. -/
theorem load_conf_ok_inv (cfg : Config) (d : Option String)
    (st : SettingsState) (h : load_conf cfg d = Except.ok st) :
    st.conf_file = none
    ∧ (∃ A, st.cm_start = A ++ " -D"
        ∧ st.cm_debug = pyRstrip "-D" st.cm_start ++ " --log-level debug")
    ∧ (∀ v, List.lookup "sslcertkey" cfg = some v →
        2 ≤ (pySplitAll ' ' v).length) := by
  simp only [load_conf] at h
  cases h1 : List.lookup "appname" cfg with
  | none => simp [cfgGet_none h1, bindErr] at h
  | some an =>
  simp only [cfgGet_some h1, bindOk] at h
  cases h2 : List.lookup "appcall" cfg with
  | none => simp [cfgGet_none h2, bindErr] at h
  | some ac =>
  simp only [cfgGet_some h2, bindOk] at h
  cases h3 : List.lookup "appuser" cfg with
  | none => simp [cfgGet_none h3, bindErr] at h
  | some au =>
  simp only [cfgGet_some h3, bindOk] at h
  cases h4 : List.lookup "appgroup" cfg with
  | none => simp [cfgGet_none h4, bindErr] at h
  | some ag =>
  simp only [cfgGet_some h4, bindOk] at h
  cases h5 : List.lookup "workers" cfg with
  | none => simp [cfgGet_none h5, bindErr] at h
  | some w =>
  simp only [cfgGet_some h5, bindOk] at h
  cases h6 : List.lookup "port" cfg with
  | none => simp [cfgGet_none h6, bindErr] at h
  | some p =>
  simp only [cfgGet_some h6, bindOk] at h
  cases h7 : List.lookup "sslcertkey" cfg with
  | none => simp [h7, bindOk, bindErr, pureOk] at h
  | some v0 =>
  simp only [h7] at h
  cases h8 : pyIndex (pySplitAll ' ' v0) 0 with
  | error e => simp [h8, bindErr] at h
  | ok c0 =>
  simp only [h8, bindOk] at h
  cases h9 : pyIndex (pySplitAll ' ' v0) 1 with
  | error e => simp [h9, bindErr] at h
  | ok c1 =>
  simp only [h9, bindOk, pureOk, bindErr] at h
  simp only [Except.ok.injEq] at h
  subst h
  refine ⟨rfl, ⟨_, rfl, rfl⟩, ?_⟩
  intro v hv
  have hv0 : v0 = v := Option.some.inj hv
  subst hv0
  have hlt := pyIndex_lt_of_ok _ 1 c1 h9
  omega

/-- `process_list` never executes a command through `run_cmd`: its only
side effect is the scan. -/
theorem process_list_no_exec (argv : List String) (orc : Oracle)
    (st : SettingsState) : (process_list argv orc st).1.filter isExecEv = [] := by
  unfold process_list
  by_cases hd : dryRunFlag argv = true
  · simp [hd, isExecEv]
  · cases hps : ps_aux orc.scanOut with
    | error e => simp [hd, hps, isExecEv]
    | ok procs =>
      by_cases he : procs.isEmpty
      · simp [hd, hps, he, isExecEv]
      · have hmap : (procs.map Ev.printRecord).filter isExecEv = [] := by
          apply List.filter_eq_nil_iff.mpr
          intro a ha
          rcases List.mem_map.mp ha with ⟨r, _, rfl⟩
          simp [isExecEv]
        simp [hd, hps, he, isExecEv, List.filter_append, hmap]

/-! ### Claim theorems -/

/-- C8: whenever the process-listing command exits non-zero (a
`CalledProcessError`, modelled as `Except.error ()`), `ps_aux` returns the
empty sequence of records and never raises an error. -/
theorem claim8_scan_fails_soft : ps_aux (Except.error ()) = Except.ok [] := rfl

/-- C7: on a listing in which every whitespace-collapsed line splits into at
least 11 fields, the scan splits each line with maxsplit 10 (so exactly 11
fields, the 11th holding the remainder of the command line) and returns
exactly the records of the lines whose command-line field contains the
token `gunicorn`, in listing order. -/
theorem claim7_scanner_filter (out : String)
    (h : ∀ l ∈ fieldsOf out, 11 ≤ l.length) :
    ps_aux (Except.ok out)
      = Except.ok (((fieldsOf out).filter keepLine).map recOfFields) := by
  simpa [ps_aux, ps_parse] using scanLines_ok (fieldsOf out) h

/-- C7 witness: a concrete two-line listing (one gunicorn line, one
unrelated line) satisfies the well-formedness hypothesis, and the scan
keeps exactly the matching line. -/
theorem claim7_witness :
    (∀ l ∈ fieldsOf testPsTwo, 11 ≤ l.length)
    ∧ ps_aux (Except.ok testPsTwo)
        = Except.ok (((fieldsOf testPsTwo).filter keepLine).map recOfFields) :=
  ⟨by decide, claim7_scanner_filter testPsTwo (by decide)⟩

/-- C10: the scanner indexes field 10 of every split line before applying
the gunicorn filter, so whenever the list command exits 0 but some line of
its output has fewer than 11 whitespace-separated fields, the scan raises
`IndexError` instead of skipping the line or returning records. -/
theorem claim10_short_line_raises (out : String)
    (h : ∃ l ∈ fieldsOf out, l.length < 11) :
    ps_aux (Except.ok out) = Except.error PyError.indexError := by
  simpa [ps_aux, ps_parse] using scanLines_err (fieldsOf out) h

/-- C10 witness: the one-field output `"x"` makes the scan raise
`IndexError`. -/
theorem claim10_witness :
    (∃ l ∈ fieldsOf "x", l.length < 11)
    ∧ ps_aux (Except.ok "x") = Except.error PyError.indexError :=
  ⟨by decide, claim10_short_line_raises "x" (by decide)⟩

/-- C3: partial TLS configuration is rejected, never partially applied. A
configuration whose required keys are present but whose `sslcertkey` value
holds a single path makes `load_conf` raise `IndexError` at the
`sslck[1]` access, so no start command is ever built with a lone
`--certfile` flag; and conversely any successful load implies the
`sslcertkey` value split into at least two paths (both cert and key
present — its absence altogether is trapped earlier by the unbound-local
read, so TLS flags reach `cm_start` only fully paired). -/
theorem claim3_single_tls_path_rejected :
    (∀ (cfg : Config) (d : Option String) (an ac au ag w p v : String),
      List.lookup "appname" cfg = some an →
      List.lookup "appcall" cfg = some ac →
      List.lookup "appuser" cfg = some au →
      List.lookup "appgroup" cfg = some ag →
      List.lookup "workers" cfg = some w →
      List.lookup "port" cfg = some p →
      List.lookup "sslcertkey" cfg = some v →
      (pySplitAll ' ' v).length = 1 →
      load_conf cfg d = Except.error PyError.indexError)
    ∧ (∀ (cfg : Config) (d : Option String) (st : SettingsState) (v : String),
      load_conf cfg d = Except.ok st →
      List.lookup "sslcertkey" cfg = some v →
      2 ≤ (pySplitAll ' ' v).length) := by
  constructor
  · intro cfg d an ac au ag w p v h1 h2 h3 h4 h5 h6 h7 hv
    obtain ⟨a, ha⟩ := List.length_eq_one.mp hv
    simp only [load_conf, cfgGet_some h1, cfgGet_some h2, cfgGet_some h3,
      cfgGet_some h4, cfgGet_some h5, cfgGet_some h6, h7, bindOk, ha]
    simp [pyIndex, bindOk, bindErr]
  · intro cfg d st v h hv
    exact (load_conf_ok_inv cfg d st h).2.2 v hv

/-- C3 witness: the concrete configuration with the single-path value
`/srv/ssl.crt` is rejected with `IndexError`, and the complete two-path
configuration splits into two paths. -/
theorem claim3_witness :
    load_conf cfgSSL1 none = Except.error PyError.indexError
    ∧ 2 ≤ (pySplitAll ' ' "/srv/ssl.crt /srv/ssl.key").length :=
  ⟨claim3_single_tls_path_rejected.1 cfgSSL1 none "hellopy" "app:hello" "ray"
      "staff" "2" "8000" "/srv/ssl.crt" rfl rfl rfl rfl rfl rfl rfl (by decide),
   claim3_single_tls_path_rejected.2 cfgSSL none stSSL "/srv/ssl.crt /srv/ssl.key"
      rfl rfl⟩

/-- C4 (code bug): the claimed example configuration (appname `hellopy`,
no TLS) does NOT load successfully — `load_conf` raises
`UnboundLocalError`, because the local variable `sslcertkey` interpolated
into the start command (line 175) is only assigned inside the
`has_option('global', 'sslcertkey')` branch (line 170), while line 165
initializes the distinct class attribute `settings.sslcertkey`. The second
part shows the intended behavior is within one name of working: with a
complete `sslcertkey` pair added, the very same configuration loads and
the derived start command binds port 8000, sets 2 workers, user `ray`,
group `staff`, and the process tag `hellopy-runapp`. -/
theorem claim4_code_bug :
    load_conf cfg0 none = Except.error PyError.unboundLocalError
    ∧ load_conf cfgSSL none = Except.ok stSSL
    ∧ pyInStr "-b :8000" stSSL.cm_start = true
    ∧ pyInStr "-w 2" stSSL.cm_start = true
    ∧ pyInStr "-u ray" stSSL.cm_start = true
    ∧ pyInStr "-g staff" stSSL.cm_start = true
    ∧ pyInStr "-n hellopy-runapp" stSSL.cm_start = true :=
  ⟨rfl, rfl, by decide, by decide, by decide, by decide, by decide⟩

/-- C5 (code bug): after EVERY successful configuration load, `process_conf`
raises `AttributeError` instead of printing the settings file: it reads
`settings.conf_file`, a class attribute that no code ever assigns
(`load_conf` only has a local variable of that name), so the conf operation
can never reach the file read, vanished file or not. -/
theorem claim5_conf_attribute_error
    (fileRead : String → Except PyError String) (cfg : Config)
    (d : Option String) (st : SettingsState)
    (h : load_conf cfg d = Except.ok st) :
    process_conf fileRead st = Except.error PyError.attributeError := by
  have hcf := (load_conf_ok_inv cfg d st h).1
  simp [process_conf, hcf]

/-- C5 witness: a concrete successful load (complete TLS pair) still makes
the conf operation raise `AttributeError`, even with a file reader that
always succeeds. -/
theorem claim5_witness :
    load_conf cfgSSL none = Except.ok stSSL
    ∧ process_conf fr0 stSSL = Except.error PyError.attributeError :=
  ⟨rfl, claim5_conf_attribute_error fr0 cfgSSL none stSSL rfl⟩

/-- C9 counterexample: the claim says the debug command adds a
debug/verbose logging flag pointed at the configured error-log path
(default `error.log`), but the source has no error-log option at all: for
a concretely loaded settings state the debug command is the start command
with the trailing `-D` stripped plus `--log-level debug`, and no
`error.log` (nor any log path) occurs in it. -/
theorem claim9_counterexample :
    load_conf cfgSSL none = Except.ok stSSL
    ∧ stSSL.cm_debug
        = "gunicorn --certfile=/srv/ssl.crt --keyfile=/srv/ssl.key app:hello -n hellopy-runapp -w 2 -u ray -g staff -b :8000  --log-level debug"
    ∧ pyInStr "error.log" stSSL.cm_debug = false :=
  ⟨rfl, rfl, by decide⟩

/-- C9 (amended): for every successfully loaded settings state, the debug
command equals the start command with the trailing background-detach flag
`-D` removed (via `rstrip("-D")`, which strips the two trailing characters
and keeps the preceding space) followed by the appended flag
`--log-level debug`; no error-log path is read or embedded. -/
theorem claim9_debug_vs_start (cfg : Config) (d : Option String)
    (st : SettingsState) (h : load_conf cfg d = Except.ok st) :
    ∃ u, st.cm_start = u ++ " -D"
      ∧ st.cm_debug = u ++ " " ++ " --log-level debug" := by
  obtain ⟨-, ⟨A, hs, hd⟩, -⟩ := load_conf_ok_inv cfg d st h
  refine ⟨A, hs, ?_⟩
  rw [hd, hs, pyRstrip_dashD]

/-- C9 witness: the amended relation instantiated at a concrete
configuration. -/
theorem claim9_witness :
    ∃ u, stSSL.cm_start = u ++ " -D"
      ∧ stSSL.cm_debug = u ++ " " ++ " --log-level debug" :=
  claim9_debug_vs_start cfgSSL none stSSL rfl

/-- C6: a restart that is not a dry run executes exactly one command: when
the scan discovered pids, it is the `&&`-join of one `kill -9` segment per
pid followed by the start command (every kill segment precedes the start
segment); when the scan discovered none, it is the bare start command. -/
theorem claim6_restart_compound (argv : List String) (orc : Oracle)
    (st : SettingsState) (pids : List String)
    (hdry : dryRunFlag argv = false)
    (hpids : get_pids orc = Except.ok pids) :
    (process_restart argv orc st).1.filter isExecEv
        = [Ev.exec (killThen pids st.cm_start)]
    ∧ (pids ≠ [] → killThen pids st.cm_start
        = pyJoin " && " ((pids.map fun p => "kill -9 " ++ p) ++ [st.cm_start]))
    ∧ (pids = [] → killThen pids st.cm_start = st.cm_start) := by
  refine ⟨?_, fun h => killThen_eq_pyJoin pids st.cm_start h,
    fun h => by simp [killThen, h]⟩
  cases hex : orc.execRes (killThen pids st.cm_start) with
  | error e =>
    simp [process_restart, hpids, hdry, hex, isExecEv]
  | ok out =>
    by_cases ho : out = ""
    · simp [process_restart, hpids, hdry, hex, ho, isExecEv,
        List.filter_append, process_list_no_exec]
    · simp [process_restart, hpids, hdry, hex, ho, isExecEv,
        List.filter_append, process_list_no_exec]

/-- C6 witness: with one discovered pid, the restart executes the compound
command `kill -9 1234 && <start>`; the kill segment precedes the start
segment. -/
theorem claim6_witness :
    (process_restart ["runapp", "restart"] testOracle testSettings).1.filter
        isExecEv
      = [Ev.exec (killThen ["1234"] testSettings.cm_start)]
    ∧ (["1234"] ≠ [] → killThen ["1234"] testSettings.cm_start
        = pyJoin " && "
            ((["1234"].map fun p => "kill -9 " ++ p) ++ [testSettings.cm_start]))
    ∧ (["1234"] = [] → killThen ["1234"] testSettings.cm_start
        = testSettings.cm_start) :=
  claim6_restart_compound ["runapp", "restart"] testOracle testSettings
    ["1234"] (by decide) (by decide)

/-- C1 counterexample: the claim says a dry-run invocation triggers no
externally observable process listing, but `process_stop` scans the
process table (to build the kill command) BEFORE the dry-run check: a
concrete dry-run stop issues a scan. -/
theorem claim1_counterexample :
    dryRunFlag ["runapp", "stop", "-s"] = true
    ∧ Ev.scan ∈ (process_stop ["runapp", "stop", "-s"] testOracle testSettings).1 :=
  ⟨rfl, by decide⟩

/-- C1 (amended): in dry-run mode the fully built shell command is printed
and the invocation terminates immediately without executing it, and no
kill or start/debug execution is ever issued (no `run_cmd`, whether or not
the scan succeeds). For `start` the dry-run check precedes the scan, so
its whole trace is the single dry-run print of the start command. For
`stop`, `restart` and `debug` the process-table scan runs BEFORE the
dry-run check, because the kill command is built from the scanned pids:
whenever the scan succeeds, their whole dry-run trace is exactly the scan
followed by the dry-run print of the built command (the kill chain, the
kill-then-start compound, the kill-then-debug compound respectively), and
the invocation terminates immediately. -/
theorem claim1_dry_run (argv : List String) (orc : Oracle)
    (st : SettingsState) (h : dryRunFlag argv = true) :
    process_start argv orc st
        = ([Ev.exitPrint st.cm_start], PyResult.exitedDryRun)
    ∧ (process_stop argv orc st).1.filter isExecEv = []
    ∧ (process_restart argv orc st).1.filter isExecEv = []
    ∧ (process_debug argv orc st).1.filter isExecEv = []
    ∧ (∀ pids, get_pids orc = Except.ok pids →
        process_stop argv orc st
            = ([Ev.scan, Ev.exitPrint (stopCmd pids)], PyResult.exitedDryRun)
        ∧ process_restart argv orc st
            = ([Ev.scan, Ev.exitPrint (killThen pids st.cm_start)],
               PyResult.exitedDryRun)
        ∧ process_debug argv orc st
            = ([Ev.scan, Ev.exitPrint (killThen pids st.cm_debug)],
               PyResult.exitedDryRun)) := by
  refine ⟨by simp [process_start, h], ?_, ?_, ?_, ?_⟩
  · cases hg : get_pids orc with
    | error e => simp [process_stop, hg, isExecEv]
    | ok pids => simp [process_stop, hg, h, isExecEv]
  · cases hg : get_pids orc with
    | error e => simp [process_restart, hg, isExecEv]
    | ok pids => simp [process_restart, hg, h, isExecEv]
  · cases hg : get_pids orc with
    | error e => simp [process_debug, hg, isExecEv]
    | ok pids => simp [process_debug, hg, h, isExecEv]
  · intro pids hg
    exact ⟨by simp [process_stop, hg, h], by simp [process_restart, hg, h],
      by simp [process_debug, hg, h]⟩

/-- C1 witness: the amended dry-run behavior at a concrete invocation
whose scan finds the pid 1234: the start trace is the single dry-run
print, and each of stop/restart/debug scans once and then prints its built
command and terminates, never executing anything. -/
theorem claim1_witness :
    process_start ["runapp", "start", "-s"] testOracle testSettings
        = ([Ev.exitPrint testSettings.cm_start], PyResult.exitedDryRun)
    ∧ process_stop ["runapp", "start", "-s"] testOracle testSettings
        = ([Ev.scan, Ev.exitPrint (stopCmd ["1234"])], PyResult.exitedDryRun)
    ∧ process_restart ["runapp", "start", "-s"] testOracle testSettings
        = ([Ev.scan, Ev.exitPrint (killThen ["1234"] testSettings.cm_start)],
           PyResult.exitedDryRun)
    ∧ process_debug ["runapp", "start", "-s"] testOracle testSettings
        = ([Ev.scan, Ev.exitPrint (killThen ["1234"] testSettings.cm_debug)],
           PyResult.exitedDryRun) :=
  have hmain := claim1_dry_run ["runapp", "start", "-s"] testOracle
    testSettings (by decide)
  have hscan := hmain.2.2.2.2 ["1234"] (by decide)
  ⟨hmain.1, hscan.1, hscan.2.1, hscan.2.2⟩

/-- C2 counterexample: the claim says every mutating operation converts a
failing shell command into the generic message and still exits 0, but
`process_stop` has no try/except around `run_cmd`: at a concrete
invocation whose kill command exits non-zero, the `CalledProcessError`
propagates as a crash. -/
theorem claim2_counterexample :
    dryRunFlag ["runapp", "stop"] = false
    ∧ get_pids testOracle = Except.ok ["1234"]
    ∧ (process_stop ["runapp", "stop"] testOracle testSettings).2
        = PyResult.crashed PyError.calledProcessError :=
  ⟨rfl, by decide, by decide⟩

/-- C2 (amended): when the executed shell command exits non-zero, `start`
and `restart` catch the error, print the generic message and finish
normally (exit 0); `debug` catches it too but through an inner bare except
that prints an empty line, so the generic debug message is never shown
(the trace is exactly scan, intro message, execution, empty print); and
`stop` does not catch it at all — the `CalledProcessError` propagates as a
crash. -/
theorem claim2_execution_failures (argv : List String) (orc : Oracle)
    (st : SettingsState) (pids : List String)
    (hdry : dryRunFlag argv = false)
    (hpids : get_pids orc = Except.ok pids)
    (hfail : ∀ c, orc.execRes c = Except.error ()) :
    ((process_start argv orc st).2 = PyResult.finished
      ∧ Ev.print "Nothing to start. Be sure to double check your app configuration."
          ∈ (process_start argv orc st).1)
    ∧ ((process_restart argv orc st).2 = PyResult.finished
      ∧ Ev.print "Nothing to restart. Be sure to double check your app configuration."
          ∈ (process_restart argv orc st).1)
    ∧ ((process_debug argv orc st).1
        = [Ev.scan, Ev.print (debugIntroMsg st),
           Ev.exec (killThen pids st.cm_debug), Ev.print ""]
      ∧ (process_debug argv orc st).2 = PyResult.finished)
    ∧ (process_stop argv orc st).2 = PyResult.crashed PyError.calledProcessError := by
  refine ⟨⟨?_, ?_⟩, ⟨?_, ?_⟩, ⟨?_, ?_⟩, ?_⟩ <;>
    by_cases hpe : pids.isEmpty = true <;>
    simp [process_start, process_restart, process_debug, process_stop,
      hdry, hpids, hfail, hpe]

/-- C2 witness: the amended failure behavior at a concrete invocation with
one discovered pid and an always-failing shell. -/
theorem claim2_witness :
    ((process_start ["runapp", "stop"] testOracle testSettings).2
        = PyResult.finished
      ∧ Ev.print "Nothing to start. Be sure to double check your app configuration."
          ∈ (process_start ["runapp", "stop"] testOracle testSettings).1)
    ∧ ((process_restart ["runapp", "stop"] testOracle testSettings).2
        = PyResult.finished
      ∧ Ev.print "Nothing to restart. Be sure to double check your app configuration."
          ∈ (process_restart ["runapp", "stop"] testOracle testSettings).1)
    ∧ ((process_debug ["runapp", "stop"] testOracle testSettings).1
        = [Ev.scan, Ev.print (debugIntroMsg testSettings),
           Ev.exec (killThen ["1234"] testSettings.cm_debug), Ev.print ""]
      ∧ (process_debug ["runapp", "stop"] testOracle testSettings).2
        = PyResult.finished)
    ∧ (process_stop ["runapp", "stop"] testOracle testSettings).2
        = PyResult.crashed PyError.calledProcessError :=
  claim2_execution_failures ["runapp", "stop"] testOracle testSettings
    ["1234"] (by decide) (by decide) (fun c => rfl)

end Runapp
